import Mathlib

/-!
Verification of `fakturoid/utils.py` from the python-fakturoid repository.

The Python helpers are embedded shallowly:

* Python dictionaries and object attribute tables become association lists
  `List (String × PyVal)` over a small universe `PyVal` of Python values
  (`None`, booleans, integers, strings).
* The HTTP layer is abstracted as a sequence of responses `Nat → HttpResponse`:
  response `k` is what the `k`-th issued `requests.get` call returns.
* The `while retries < max_retries` loop of `download_invoice_pdf` is run with
  explicit fuel, separate from the `retries` counter, so that the loop's
  (non-)termination is itself expressible: `Option.none` means the loop was
  still running when the fuel ran out.
* Raised exceptions become `Except` errors / explicit outcome constructors.
-/

set_option autoImplicit false

namespace Fakturoid

/-- A Python value, as far as the helpers under verification inspect one. -/
inductive PyVal where
  | none
  | bool (b : Bool)
  | int (n : Int)
  | str (s : String)
deriving DecidableEq, Repr

/-- Python truthiness (`if x:`) restricted to the `PyVal` universe. -/
def PyVal.isTruthy : PyVal → Bool
  | .none => false
  | .bool b => b
  | .int n => n != 0
  | .str s => s != ""

/-- A Python `dict` (and likewise an object's attribute table). -/
def PyDict : Type := List (String × PyVal)

/-- First binding of key `f`, like a Python dict/attribute lookup. -/
def dictLookup : PyDict → String → Option PyVal
  | [], _ => Option.none
  | (g, w) :: rest, f => if g = f then some w else dictLookup rest f

/-- Python `d.get(k, default)`: the stored value when the key is present
(even when that value is `None`), the default otherwise. -/
def dictGet (d : PyDict) (f : String) (dflt : PyVal) : PyVal :=
  (dictLookup d f).getD dflt

/-- Exceptions raised by the helpers under verification. -/
inductive PyError where
  | valueError (msg : String)
  | keyError (key : String)
deriving DecidableEq, Repr

/-- An HTTP response as `download_invoice_pdf` inspects it: a status code and
the body bytes (`response.content`). -/
structure HttpResponse where
  status_code : Nat
  content : List Nat
deriving DecidableEq, Repr

/-- How a run of the `download_invoice_pdf` loop ends. -/
inductive DlOutcome where
  /-- Success: `return response.content` on a 200 response. -/
  | body (content : List Nat)
  /-- Raised: `response.raise_for_status()` threw `requests.exceptions.HTTPError`
  (re-raised unmodified by the `except` clause). -/
  | raised (status : Nat)
  /-- The `while` condition became false: `return None`. -/
  | exhausted
deriving DecidableEq, Repr

/-- Externally observable events of a run of the loop. -/
inductive DlEvent where
  /-- A `requests.get` call whose response had this status code. -/
  | request (status : Nat)
  /-- A `time.sleep(delay)` call. -/
  | sleep (delay : Nat)
deriving DecidableEq, Repr

/-- The `while retries < max_retries` loop of `download_invoice_pdf`
(`utils.py` lines 298-314), started at counter value `retries` with the `k`-th
response up next.  The final argument is fuel bounding how many loop
iterations are simulated; `Option.none` means the loop had not finished within
that many iterations.  Alongside the outcome, the trace of requests and sleeps
the run performed is returned.

Branches, in source order: status 200 returns the body at once; status 204
sleeps `retry_delay` and increments `retries`; any other status goes through
`response.raise_for_status()`, which raises exactly for 400-599 and is a
no-op otherwise, after which the loop repeats with `retries` unchanged. -/
def runFrom (resp : Nat → HttpResponse) (retry_delay max_retries : Nat) :
    Nat → Nat → Nat → Option (DlOutcome × List DlEvent)
  | _, _, 0 => Option.none
  | retries, k, fuel + 1 =>
    if retries < max_retries then
      let r := resp k
      if r.status_code = 200 then
        some (DlOutcome.body r.content, [DlEvent.request 200])
      else if r.status_code = 204 then
        match runFrom resp retry_delay max_retries (retries + 1) (k + 1) fuel with
        | Option.none => Option.none
        | some (o, evs) =>
            some (o, DlEvent.request 204 :: DlEvent.sleep retry_delay :: evs)
      else if 400 ≤ r.status_code ∧ r.status_code < 600 then
        some (DlOutcome.raised r.status_code, [DlEvent.request r.status_code])
      else
        match runFrom resp retry_delay max_retries retries (k + 1) fuel with
        | Option.none => Option.none
        | some (o, evs) => some (o, DlEvent.request r.status_code :: evs)
    else
      some (DlOutcome.exhausted, [])

/-- The loop of `download_invoice_pdf` diverges on this response sequence:
no amount of fuel makes it finish. -/
def dlDiverges (resp : Nat → HttpResponse) (retry_delay max_retries : Nat) : Prop :=
  ∀ fuel, runFrom resp retry_delay max_retries 0 0 fuel = Option.none

/-- Number of `requests.get` calls recorded in a trace. -/
def countRequests : List DlEvent → Nat
  | [] => 0
  | DlEvent.request _ :: rest => countRequests rest + 1
  | DlEvent.sleep _ :: rest => countRequests rest

/-- Function `get_fakturoid_invoice_pdf_url` (`utils.py` lines 273-275): the format
string receives `slug` first and `invoice_id` second. -/
def get_fakturoid_invoice_pdf_url (invoice_id : Int) (slug : String) : String :=
  "https://app.fakturoid.cz/api/v3/accounts/" ++ slug ++ "/invoices/"
    ++ toString invoice_id ++ "/download.pdf"

/-- The fields of the `Fakturoid` client object read by `download_invoice_pdf`. -/
structure FakturoidAccount where
  slug : String
  user_agent : String
  token : String
deriving DecidableEq, Repr

/-- The headers dict built by `download_invoice_pdf` (`utils.py` 292-296). -/
def download_headers (fa : FakturoidAccount) : List (String × String) :=
  [("User-Agent", fa.user_agent),
   ("Authorization", "Bearer " ++ fa.token),
   ("Accept", "application/pdf")]

/-- Function `download_invoice_pdf` (`utils.py` lines 278-314): builds the URL and
headers, then runs the retry loop from `retries = 0` on the given response
sequence.  The URL and headers are returned alongside the loop result so that
what the function sends with each request is part of the model. -/
def download_invoice_pdf (fa : FakturoidAccount) (invoice_id : Int)
    (resp : Nat → HttpResponse) (retry_delay max_retries fuel : Nat) :
    String × List (String × String) × Option (DlOutcome × List DlEvent) :=
  (get_fakturoid_invoice_pdf_url invoice_id fa.slug,
   download_headers fa,
   runFrom resp retry_delay max_retries 0 0 fuel)

/-- The URL template as the specification words it:
`https://app.fakturoid.cz/api/v3/accounts/{slug}/invoices/{invoice_id}/download.pdf`
with `{slug}` and `{invoice_id}` substituted in those positions. -/
def spec_pdf_url (slug invoiceId : String) : String :=
  "https://app.fakturoid.cz/api/v3/accounts/" ++ slug ++ "/invoices/"
    ++ invoiceId ++ "/download.pdf"

/-- Expected trace of `n` consecutive not-ready polls: each issues one request
answered with 204 and then sleeps for `d` seconds. -/
def poll204Trace (d : Nat) : Nat → List DlEvent
  | 0 => []
  | n + 1 => DlEvent.request 204 :: DlEvent.sleep d :: poll204Trace d n

lemma countRequests_poll204Trace (d : Nat) : ∀ n, countRequests (poll204Trace d n) = n := by
  intro n
  induction n with
  | zero => rfl
  | succ n ih =>
    simp only [poll204Trace, countRequests]
    omega

lemma poll204Trace_sleep_eq (d : Nat) :
    ∀ n s, DlEvent.sleep s ∈ poll204Trace d n → s = d := by
  intro n
  induction n with
  | zero => intro s hs; simp [poll204Trace] at hs
  | succ n ih =>
    intro s hs
    simp only [poll204Trace, List.mem_cons] at hs
    rcases hs with h | h | h
    · exact absurd h (by simp)
    · exact (DlEvent.sleep.injEq .. ▸ h)
    · exact ih s h

/-- A status that is neither 200 nor 204 nor in 400-599 leaves the loop state
unchanged: the loop re-requests forever and no fuel suffices. -/
lemma runFrom_uncounted_status (resp : Nat → HttpResponse) (d m : Nat)
    (h : ∀ j, (resp j).status_code ≠ 200 ∧ (resp j).status_code ≠ 204 ∧
      ¬(400 ≤ (resp j).status_code ∧ (resp j).status_code < 600)) :
    ∀ fuel retries k, retries < m →
      runFrom resp d m retries k fuel = Option.none := by
  intro fuel
  induction fuel with
  | zero => intro retries k _; rfl
  | succ fuel ih =>
    intro retries k hlt
    obtain ⟨h200, h204, hrange⟩ := h k
    simp only [runFrom, if_pos hlt, if_neg h200, if_neg h204, if_neg hrange]
    rw [ih retries (k + 1) hlt]

/-- One unrolling of the loop on a 204 response: sleep, bump the counter,
continue with the remaining fuel. -/
lemma runFrom_step_204 (resp : Nat → HttpResponse) (d m retries k fuel : Nat)
    (hlt : retries < m) (h204 : (resp k).status_code = 204)
    (hne200 : ¬ (resp k).status_code = 200) :
    runFrom resp d m retries k (fuel + 1) =
      match runFrom resp d m (retries + 1) (k + 1) fuel with
      | Option.none => Option.none
      | some (o, evs) =>
          some (o, DlEvent.request 204 :: DlEvent.sleep d :: evs) := by
  simp only [runFrom, if_pos hlt, if_neg hne200, if_pos h204]

/-- Running the loop with `r` retries left on `r` consecutive 204 responses
exhausts the counter and returns `None`; fuel `r + 1` suffices. -/
lemma runFrom_all204 (resp : Nat → HttpResponse) (d m : Nat) :
    ∀ r retries k, retries + r = m →
      (∀ j, j < r → (resp (k + j)).status_code = 204) →
      runFrom resp d m retries k (r + 1) =
        some (DlOutcome.exhausted, poll204Trace d r) := by
  intro r
  induction r with
  | zero =>
    intro retries k hm _
    have hnlt : ¬ retries < m := by omega
    simp only [runFrom, if_neg hnlt, poll204Trace]
  | succ r ih =>
    intro retries k hm hall
    have hlt : retries < m := by omega
    have h0 : (resp k).status_code = 204 := by
      have := hall 0 (by omega)
      simpa using this
    have hne200 : ¬ (resp k).status_code = 200 := by omega
    have hall' : ∀ j, j < r → (resp ((k + 1) + j)).status_code = 204 := by
      intro j hj
      have hidx : (k + 1) + j = k + (j + 1) := by omega
      rw [hidx]
      exact hall (j + 1) (by omega)
    have hih := ih (retries + 1) (k + 1) (by omega) hall'
    rw [runFrom_step_204 resp d m retries k (r + 1) hlt h0 hne200, hih]
    rfl

/-- Constant-202 responses, used to exhibit the infinite loop: 202 is neither
the success status, nor the not-ready status, nor one `raise_for_status`
raises on. -/
def resp202 : Nat → HttpResponse := fun _ => { status_code := 202, content := [] }

/-- First response 304 (non-2xx), then 200 with body `[9]`. -/
def resp304then200 : Nat → HttpResponse := fun k =>
  if k = 0 then { status_code := 304, content := [] }
  else { status_code := 200, content := [9] }

/-- C1: the claim that `download_invoice_pdf` terminates on every response
sequence is false of the code: when every response has status 202 (any status
outside {200, 204} and 400-599 behaves the same), `retries` is never
incremented and `raise_for_status` never raises, so the loop re-requests
forever — no iteration bound suffices at `retry_delay = 2`, `max_retries = 5`. -/
theorem download_pdf_diverges_on_202 : dlDiverges resp202 2 5 := by
  intro fuel
  apply runFrom_uncounted_status resp202 2 5 ?_ fuel 0 0 (by omega)
  intro j
  refine ⟨by simp [resp202], by simp [resp202], ?_⟩
  simp [resp202]

/-- C2: whenever the response to the current request has status 200 (and the
request was issued at all, i.e. the retry counter is below the bound), the
loop returns that response's body at once; the remaining trace is exactly
that one request — no further request and no further sleep occurs. -/
theorem download_pdf_200_returns_body (resp : Nat → HttpResponse)
    (d m retries k fuel : Nat) (hlt : retries < m)
    (h200 : (resp k).status_code = 200) :
    runFrom resp d m retries k (fuel + 1) =
      some (DlOutcome.body (resp k).content, [DlEvent.request 200]) := by
  simp only [runFrom, if_pos hlt, if_pos h200]

/-- Witness for C2: two hundred response with body `[3, 1, 4]` at the first
request, `retry_delay = 2`, `max_retries = 5`. -/
theorem download_pdf_200_returns_body_witness :
    runFrom (fun _ => { status_code := 200, content := [3, 1, 4] }) 2 5 0 0 1 =
      some (DlOutcome.body [3, 1, 4], [DlEvent.request 200]) :=
  download_pdf_200_returns_body (fun _ => { status_code := 200, content := [3, 1, 4] })
    2 5 0 0 0 (by omega) rfl

/-- C3 counterexample: the first response has the non-2xx status 304, yet the
function does not raise: `raise_for_status` is a no-op below 400, so the loop
issues a further request and returns the second response's body. -/
theorem download_pdf_304_does_not_raise :
    runFrom resp304then200 2 5 0 0 2 =
      some (DlOutcome.body [9], [DlEvent.request 304, DlEvent.request 200]) := by
  decide

/-- C3 amended: whenever a response's status is in 400-599 — the statuses
`response.raise_for_status()` raises on — the function raises immediately
with that status unmodified, issuing no further request and no sleep. -/
theorem download_pdf_4xx5xx_raises (resp : Nat → HttpResponse)
    (d m retries k fuel : Nat) (hlt : retries < m)
    (h400 : 400 ≤ (resp k).status_code) (h600 : (resp k).status_code < 600) :
    runFrom resp d m retries k (fuel + 1) =
      some (DlOutcome.raised (resp k).status_code,
            [DlEvent.request (resp k).status_code]) := by
  have hne200 : ¬ (resp k).status_code = 200 := by omega
  have hne204 : ¬ (resp k).status_code = 204 := by omega
  simp only [runFrom, if_pos hlt, if_neg hne200, if_neg hne204,
    if_pos (And.intro h400 h600)]

/-- Witness for C3's amended theorem: a 503 response at the first request. -/
theorem download_pdf_4xx5xx_raises_witness :
    runFrom (fun _ => { status_code := 503, content := [] }) 2 5 0 0 1 =
      some (DlOutcome.raised 503, [DlEvent.request 503]) :=
  download_pdf_4xx5xx_raises (fun _ => { status_code := 503, content := [] })
    2 5 0 0 0 (by omega) (by decide) (by decide)

/-- C4: on a 204 response the loop sleeps `retry_delay` seconds and retries,
at most `max_retries` times: when every response is 204, the run is exactly
`max_retries` request/sleep pairs (so exactly `max_retries` requests, each
followed by a sleep of `retry_delay`) and then the counter is exhausted. -/
theorem download_pdf_all_204_retries (resp : Nat → HttpResponse) (d m : Nat)
    (h : ∀ k, (resp k).status_code = 204) :
    runFrom resp d m 0 0 (m + 1) = some (DlOutcome.exhausted, poll204Trace d m) ∧
      countRequests (poll204Trace d m) = m ∧
      ∀ s, DlEvent.sleep s ∈ poll204Trace d m → s = d :=
  ⟨runFrom_all204 resp d m m 0 0 (by omega) (by intro j _; simpa using h j),
   countRequests_poll204Trace d m,
   fun s hs => poll204Trace_sleep_eq d m s hs⟩

/-- Witness for C4: all responses 204, `retry_delay = 7`, `max_retries = 3`. -/
theorem download_pdf_all_204_retries_witness :
    runFrom (fun _ => { status_code := 204, content := [] }) 7 3 0 0 4 =
        some (DlOutcome.exhausted, poll204Trace 7 3) ∧
      countRequests (poll204Trace 7 3) = 3 ∧
      ∀ s, DlEvent.sleep s ∈ poll204Trace 7 3 → s = 7 :=
  download_pdf_all_204_retries (fun _ => { status_code := 204, content := [] })
    7 3 (fun _ => rfl)

/-- C5: when every request the function issues is answered with the not-ready
status 204 (only the first `max_retries` responses matter), the loop exhausts
its retries and ends in the `exhausted` outcome — the `return None` path —
rather than raising. -/
theorem download_pdf_exhaustion_returns_none (resp : Nat → HttpResponse)
    (d m : Nat) (h : ∀ k, k < m → (resp k).status_code = 204) :
    ∃ evs, runFrom resp d m 0 0 (m + 1) = some (DlOutcome.exhausted, evs) :=
  ⟨poll204Trace d m,
   runFrom_all204 resp d m m 0 0 (by omega) (by intro j hj; simpa using h j hj)⟩

/-- Witness for C5: first two responses 204 (later ones 200, but they are
never requested), `max_retries = 2`. -/
theorem download_pdf_exhaustion_returns_none_witness :
    ∃ evs, runFrom
        (fun k => if k < 2 then { status_code := 204, content := [] }
                  else { status_code := 200, content := [1] }) 2 2 0 0 3 =
      some (DlOutcome.exhausted, evs) :=
  download_pdf_exhaustion_returns_none
    (fun k => if k < 2 then { status_code := 204, content := [] }
              else { status_code := 200, content := [1] }) 2 2
    (by intro k hk; simp [if_pos hk])

/-- C7: `download_invoice_pdf` requests exactly the URL built by
`get_fakturoid_invoice_pdf_url`, which is the documented template with the
slug and the invoice id substituted in those positions, and its headers carry
bearer authentication: the Authorization header is the word Bearer, a space,
and the account token. -/
theorem download_pdf_url_and_bearer_auth (fa : FakturoidAccount)
    (invoice_id : Int) (resp : Nat → HttpResponse) (d m fuel : Nat) :
    (download_invoice_pdf fa invoice_id resp d m fuel).1 =
        spec_pdf_url fa.slug (toString invoice_id) ∧
      get_fakturoid_invoice_pdf_url invoice_id fa.slug =
        spec_pdf_url fa.slug (toString invoice_id) ∧
      ("Authorization", "Bearer " ++ fa.token) ∈
        (download_invoice_pdf fa invoice_id resp d m fuel).2.1 := by
  refine ⟨rfl, rfl, ?_⟩
  simp [download_invoice_pdf, download_headers]

/-! ## Invoice update and deletion (`update_invoice`, `delete_invoice`) -/

/-- Python `hasattr(obj, f)` over the object's attribute table. -/
def hasattr (o : PyDict) (f : String) : Bool :=
  (dictLookup o f).isSome

/-- Python `setattr(obj, f, v)`: replace the binding of an existing
attribute, or add a new one at the end. -/
def setattr : PyDict → String → PyVal → PyDict
  | [], f, v => [(f, v)]
  | (g, w) :: rest, f, v =>
      if g = f then (f, v) :: rest else (g, w) :: setattr rest f v

/-- The update loop of `update_invoice` (`utils.py` lines 251-253): for each
key/value pair of `updated_data`, in order, set the attribute when the
invoice object already has it and silently skip it otherwise. -/
def apply_updates (invoice : PyDict) (updated_data : List (String × PyVal)) : PyDict :=
  updated_data.foldl
    (fun acc fv => if hasattr acc fv.1 then setattr acc fv.1 fv.2 else acc) invoice

/-- Function `update_invoice` (`utils.py` lines 237-256).  `invoice_lookup` abstracts
`fa.invoice`; a `none` result is what the code's `if not invoice:` test
catches.  `fa.save` has no observable effect on the returned object. -/
def update_invoice (invoice_lookup : Int → Option PyDict) (invoice_id : Int)
    (updated_data : List (String × PyVal)) : Except PyError PyDict :=
  match invoice_lookup invoice_id with
  | Option.none =>
      Except.error (PyError.valueError
        ("Invoice with id " ++ toString invoice_id ++ " not found."))
  | some invoice => Except.ok (apply_updates invoice updated_data)

/-- Function `delete_invoice` (`utils.py` lines 259-270): look the invoice up, delete
it when found (the deleted invoice is returned here to stand for the
successful `fa.delete` call), raise `ValueError` otherwise. -/
def delete_invoice (invoice_lookup : Int → Option PyDict) (invoice_id : Int) :
    Except PyError PyDict :=
  match invoice_lookup invoice_id with
  | some invoice => Except.ok invoice
  | Option.none =>
      Except.error (PyError.valueError
        ("Invoice with id " ++ toString invoice_id ++ " not found."))

/-- Did the call raise a `ValueError`? -/
def raisesValueError {α : Type} : Except PyError α → Bool
  | Except.error (PyError.valueError _) => true
  | _ => false

lemma apply_updates_nil (invoice : PyDict) : apply_updates invoice [] = invoice := rfl

lemma apply_updates_cons (invoice : PyDict) (f : String) (v : PyVal)
    (rest : List (String × PyVal)) :
    apply_updates invoice ((f, v) :: rest) =
      apply_updates (if hasattr invoice f then setattr invoice f v else invoice) rest := rfl

lemma setattr_keys (o : PyDict) (f : String) (v : PyVal) (h : hasattr o f = true) :
    (setattr o f v).map Prod.fst = o.map Prod.fst := by
  induction o with
  | nil => simp [hasattr, dictLookup] at h
  | cons p rest ih =>
    obtain ⟨g, w⟩ := p
    by_cases hg : g = f
    · subst hg
      simp [setattr]
    · have hrest : hasattr rest f = true := by
        simpa [hasattr, dictLookup, hg] using h
      simp [setattr, hg, ih hrest]

lemma dictLookup_setattr_ne (o : PyDict) (f g : String) (v : PyVal) (hne : g ≠ f) :
    dictLookup (setattr o g v) f = dictLookup o f := by
  induction o with
  | nil => simp [setattr, dictLookup, hne]
  | cons p rest ih =>
    obtain ⟨a, w⟩ := p
    by_cases ha : a = g
    · subst ha
      simp [setattr, dictLookup, hne]
    · by_cases haf : a = f
      · subst haf
        simp [setattr, ha, dictLookup]
      · simp [setattr, ha, dictLookup, haf, ih]

lemma apply_updates_keys :
    ∀ (updated_data : List (String × PyVal)) (invoice : PyDict),
      (apply_updates invoice updated_data).map Prod.fst = invoice.map Prod.fst := by
  intro updated_data
  induction updated_data with
  | nil => intro invoice; rfl
  | cons fv rest ih =>
    intro invoice
    obtain ⟨f, v⟩ := fv
    rw [apply_updates_cons]
    by_cases h : hasattr invoice f
    · rw [if_pos h, ih (setattr invoice f v), setattr_keys invoice f v h]
    · rw [if_neg h, ih invoice]

lemma apply_updates_lookup_of_not_mem :
    ∀ (updated_data : List (String × PyVal)) (invoice : PyDict) (f : String),
      f ∉ updated_data.map Prod.fst →
      dictLookup (apply_updates invoice updated_data) f = dictLookup invoice f := by
  intro updated_data
  induction updated_data with
  | nil => intro invoice f _; rfl
  | cons fv rest ih =>
    intro invoice f hmem
    obtain ⟨g, v⟩ := fv
    have hgf : g ≠ f := by
      rintro rfl
      exact hmem (by simp)
    have hfr : f ∉ rest.map Prod.fst := by
      intro hc
      exact hmem (by simp [hc])
    rw [apply_updates_cons]
    by_cases h : hasattr invoice g
    · rw [if_pos h, ih (setattr invoice g v) f hfr,
        dictLookup_setattr_ne invoice f g v hgf]
    · rw [if_neg h, ih invoice f hfr]

lemma apply_updates_lookup_of_no_attr :
    ∀ (updated_data : List (String × PyVal)) (invoice : PyDict) (f : String),
      hasattr invoice f = false →
      dictLookup (apply_updates invoice updated_data) f = dictLookup invoice f := by
  intro updated_data
  induction updated_data with
  | nil => intro invoice f _; rfl
  | cons fv rest ih =>
    intro invoice f hf
    obtain ⟨g, v⟩ := fv
    rw [apply_updates_cons]
    by_cases hg : hasattr invoice g
    · by_cases hgf : g = f
      · subst hgf
        simp [hg] at hf
      · rw [if_pos hg]
        have hf' : hasattr (setattr invoice g v) f = false := by
          unfold hasattr
          rw [dictLookup_setattr_ne invoice f g v hgf]
          exact hf
        rw [ih (setattr invoice g v) f hf',
          dictLookup_setattr_ne invoice f g v hgf]
    · rw [if_neg hg, ih invoice f hf]

/-- C6: `update_invoice` and `delete_invoice` raise a `ValueError` exactly
when the lookup `fa.invoice(invoice_id)` yields no invoice; whenever an
invoice is found, neither raises. -/
theorem invoice_not_found_raises_valueerror (invoice_lookup : Int → Option PyDict)
    (invoice_id : Int) (updated_data : List (String × PyVal)) :
    raisesValueError (update_invoice invoice_lookup invoice_id updated_data) =
        (invoice_lookup invoice_id).isNone ∧
      raisesValueError (delete_invoice invoice_lookup invoice_id) =
        (invoice_lookup invoice_id).isNone := by
  constructor <;>
    cases h : invoice_lookup invoice_id <;>
      simp [update_invoice, delete_invoice, raisesValueError, h]

/-- C8: when the invoice is found, `update_invoice` succeeds and only
reassigns attributes that are both named in `updated_data` and already
present on the invoice: the attribute name list is unchanged, and any
attribute whose value differs afterwards must be a key of `updated_data` that
the invoice already had (so unknown keys are silently ignored and unnamed
fields keep their values). -/
theorem update_invoice_frame (invoice_lookup : Int → Option PyDict)
    (invoice_id : Int) (updated_data : List (String × PyVal))
    (invoice : PyDict) (f : String)
    (hfound : invoice_lookup invoice_id = some invoice) :
    update_invoice invoice_lookup invoice_id updated_data =
        Except.ok (apply_updates invoice updated_data) ∧
      (apply_updates invoice updated_data).map Prod.fst = invoice.map Prod.fst ∧
      (dictLookup (apply_updates invoice updated_data) f ≠ dictLookup invoice f →
        f ∈ updated_data.map Prod.fst ∧ hasattr invoice f = true) := by
  refine ⟨by simp [update_invoice, hfound], apply_updates_keys updated_data invoice, ?_⟩
  intro hne
  constructor
  · by_contra hmem
    exact hne (apply_updates_lookup_of_not_mem updated_data invoice f hmem)
  · by_contra hattr
    have hfalse : hasattr invoice f = false := by
      cases h : hasattr invoice f
      · rfl
      · exact absurd h hattr
    exact hne (apply_updates_lookup_of_no_attr updated_data invoice f hfalse)

/-- An invoice object with a `status` and a `note` attribute. -/
def invExample : PyDict := [("status", PyVal.str "open"), ("note", PyVal.none)]

/-- An update renaming `status` and naming an attribute the invoice lacks. -/
def updExample : List (String × PyVal) := [("status", PyVal.str "paid"), ("bogus", PyVal.int 1)]

/-- Witness for C8 at a concrete invoice and update dict: the changed field
`status` is a key of the update dict that the invoice already had. -/
theorem update_invoice_frame_witness :
    update_invoice (fun _ => some invExample) 1 updExample =
        Except.ok (apply_updates invExample updExample) ∧
      (apply_updates invExample updExample).map Prod.fst = invExample.map Prod.fst ∧
      ("status" ∈ updExample.map Prod.fst ∧ hasattr invExample "status" = true) := by
  have h := update_invoice_frame (fun _ => some invExample) 1 updExample invExample "status" rfl
  exact ⟨h.1, h.2.1, h.2.2 (by decide)⟩

/-! ## Invoice lines (`create_fakturoid_invoice_lines`) -/

/-- The fields the `InvoiceLine(...)` constructor call at `utils.py` lines
112-128 populates, in source order. -/
structure InvoiceLine where
  id : PyVal
  name : PyVal
  quantity : PyVal
  unit_name : PyVal
  unit_price : PyVal
  vat_rate : PyVal
  unit_price_without_vat : PyVal
  unit_price_with_vat : PyVal
  total_price_without_vat : PyVal
  total_vat : PyVal
  native_total_price_without_vat : PyVal
  native_total_vat : PyVal
  inventory_item_id : PyVal
  sku : PyVal
  inventory : PyVal
deriving DecidableEq, Repr

/-- One `InvoiceLine(...)` construction from a line dict (`utils.py` lines
112-128).  `line['name']` and `line['unit_price']` raise `KeyError` when
absent; every `line.get` call supplies the default written in the source. -/
def invoiceLineOfDict (line : PyDict) : Except PyError InvoiceLine :=
  match dictLookup line "name" with
  | Option.none => Except.error (PyError.keyError "name")
  | some nameVal =>
    match dictLookup line "unit_price" with
    | Option.none => Except.error (PyError.keyError "unit_price")
    | some unitPriceVal =>
        Except.ok
          { id := dictGet line "id" PyVal.none
            name := nameVal
            quantity := dictGet line "quantity" (PyVal.int 1)
            unit_name := dictGet line "unit_name" (PyVal.str "ks")
            unit_price := unitPriceVal
            vat_rate := dictGet line "vat_rate" (PyVal.int 0)
            unit_price_without_vat := dictGet line "unit_price_without_vat" unitPriceVal
            unit_price_with_vat := dictGet line "unit_price_with_vat" PyVal.none
            total_price_without_vat := dictGet line "total_price_without_vat" PyVal.none
            total_vat := dictGet line "total_vat" PyVal.none
            native_total_price_without_vat :=
              dictGet line "native_total_price_without_vat" PyVal.none
            native_total_vat := dictGet line "native_total_vat" PyVal.none
            inventory_item_id := dictGet line "inventory_item_id" PyVal.none
            sku := dictGet line "sku" PyVal.none
            inventory := dictGet line "inventory" PyVal.none }

/-- Function `create_fakturoid_invoice_lines` (`utils.py` lines 93-130): build one
`InvoiceLine` per input dict, in order, stopping at the first raising dict. -/
def create_fakturoid_invoice_lines : List PyDict → Except PyError (List InvoiceLine)
  | [] => Except.ok []
  | line :: rest =>
    match invoiceLineOfDict line with
    | Except.error e => Except.error e
    | Except.ok l =>
      match create_fakturoid_invoice_lines rest with
      | Except.error e => Except.error e
      | Except.ok ls => Except.ok (l :: ls)

lemma invoiceLineOfDict_defaults (line : PyDict) (l : InvoiceLine)
    (h : invoiceLineOfDict line = Except.ok l) :
    (dictLookup line "quantity" = Option.none → l.quantity = PyVal.int 1) ∧
      (dictLookup line "unit_name" = Option.none → l.unit_name = PyVal.str "ks") ∧
      (dictLookup line "vat_rate" = Option.none → l.vat_rate = PyVal.int 0) ∧
      (dictLookup line "unit_price_without_vat" = Option.none →
        l.unit_price_without_vat = l.unit_price) := by
  unfold invoiceLineOfDict at h
  cases hn : dictLookup line "name" with
  | none => rw [hn] at h; cases h
  | some nameVal =>
    rw [hn] at h
    cases hp : dictLookup line "unit_price" with
    | none => rw [hp] at h; cases h
    | some unitPriceVal =>
      rw [hp] at h
      injection h with h
      subst h
      refine ⟨?_, ?_, ?_, ?_⟩ <;>
        · intro h0
          simp [dictGet, h0]

/-- C9: when `create_fakturoid_invoice_lines` succeeds it returns one
`InvoiceLine` per input dict, in the same order (so the lists have the same
length), and in each line a missing `quantity` defaults to `1`, a missing
`unit_name` to `ks`, a missing `vat_rate` to `0`, and a missing
`unit_price_without_vat` to the line's `unit_price`. -/
theorem create_invoice_lines_defaults :
    ∀ (data : List PyDict) (lines : List InvoiceLine),
      create_fakturoid_invoice_lines data = Except.ok lines →
      lines.length = data.length ∧
      ∀ i (hd : i < data.length) (hl : i < lines.length),
        invoiceLineOfDict (data.get ⟨i, hd⟩) = Except.ok (lines.get ⟨i, hl⟩) ∧
        (dictLookup (data.get ⟨i, hd⟩) "quantity" = Option.none →
          (lines.get ⟨i, hl⟩).quantity = PyVal.int 1) ∧
        (dictLookup (data.get ⟨i, hd⟩) "unit_name" = Option.none →
          (lines.get ⟨i, hl⟩).unit_name = PyVal.str "ks") ∧
        (dictLookup (data.get ⟨i, hd⟩) "vat_rate" = Option.none →
          (lines.get ⟨i, hl⟩).vat_rate = PyVal.int 0) ∧
        (dictLookup (data.get ⟨i, hd⟩) "unit_price_without_vat" = Option.none →
          (lines.get ⟨i, hl⟩).unit_price_without_vat = (lines.get ⟨i, hl⟩).unit_price) := by
  intro data
  induction data with
  | nil =>
    intro lines h
    unfold create_fakturoid_invoice_lines at h
    injection h with h
    subst h
    exact ⟨rfl, fun i hd _ => absurd hd (by simp)⟩
  | cons line rest ih =>
    intro lines h
    unfold create_fakturoid_invoice_lines at h
    cases h1 : invoiceLineOfDict line with
    | error e => rw [h1] at h; cases h
    | ok l =>
      rw [h1] at h
      cases h2 : create_fakturoid_invoice_lines rest with
      | error e => rw [h2] at h; cases h
      | ok ls =>
        rw [h2] at h
        injection h with h
        subst h
        obtain ⟨hlen, hrest⟩ := ih ls h2
        refine ⟨by simp [hlen], ?_⟩
        intro i hd hl
        cases i with
        | zero =>
          obtain ⟨hq, hu, hv, hw⟩ := invoiceLineOfDict_defaults line l h1
          exact ⟨h1, hq, hu, hv, hw⟩
        | succ i =>
          exact hrest i (by simpa using hd) (by simpa using hl)

/-- A single line dict carrying only the required keys. -/
def lineDictExample : PyDict := [("name", PyVal.str "Item"), ("unit_price", PyVal.int 100)]

/-- The `InvoiceLine` the code builds from `lineDictExample`: all four
defaulted fields take their defaults and the rest are `None`. -/
def lineExample : InvoiceLine :=
  { id := PyVal.none
    name := PyVal.str "Item"
    quantity := PyVal.int 1
    unit_name := PyVal.str "ks"
    unit_price := PyVal.int 100
    vat_rate := PyVal.int 0
    unit_price_without_vat := PyVal.int 100
    unit_price_with_vat := PyVal.none
    total_price_without_vat := PyVal.none
    total_vat := PyVal.none
    native_total_price_without_vat := PyVal.none
    native_total_vat := PyVal.none
    inventory_item_id := PyVal.none
    sku := PyVal.none
    inventory := PyVal.none }

/-- Witness for C9 at the one-dict input: same length, and the defaults of
the first (only) line evaluate as claimed. -/
theorem create_invoice_lines_defaults_witness :
    ([lineExample].length = [lineDictExample].length ∧
        lineExample.quantity = PyVal.int 1) ∧
      lineExample.unit_name = PyVal.str "ks" ∧
      lineExample.vat_rate = PyVal.int 0 ∧
      lineExample.unit_price_without_vat = lineExample.unit_price := by
  have h := create_invoice_lines_defaults [lineDictExample] [lineExample] rfl
  have h0 := h.2 0 (by decide) (by decide)
  exact ⟨⟨h.1, h0.2.1 (by decide)⟩, h0.2.2.1 (by decide), h0.2.2.2.1 (by decide),
    h0.2.2.2.2 (by decide)⟩

/-! ## Subjects (`create_fakturoid_subject`) -/

/-- The fields the `Subject(...)` constructor call at `utils.py` lines 41-85
populates, in source order.  The declared defaults mirror the `data.get`
defaults of that call and only ease writing concrete subjects; the
construction in `subjectOfDict` sets every field explicitly. -/
structure Subject where
  custom_id : PyVal := PyVal.none
  type : PyVal := PyVal.none
  name : PyVal := PyVal.none
  full_name : PyVal := PyVal.none
  email : PyVal := PyVal.none
  email_copy : PyVal := PyVal.none
  phone : PyVal := PyVal.none
  web : PyVal := PyVal.none
  street : PyVal := PyVal.none
  city : PyVal := PyVal.none
  zip : PyVal := PyVal.none
  country : PyVal := PyVal.none
  registration_no : PyVal := PyVal.none
  vat_no : PyVal := PyVal.none
  legal_form : PyVal := PyVal.none
  vat_mode : PyVal := PyVal.none
  bank_account : PyVal := PyVal.none
  iban : PyVal := PyVal.none
  swift_bic : PyVal := PyVal.none
  variable_symbol : PyVal := PyVal.none
  setting_update_from_ares : PyVal := PyVal.str "inherit"
  ares_update : PyVal := PyVal.bool true
  setting_invoice_pdf_attachments : PyVal := PyVal.str "inherit"
  setting_estimate_pdf_attachments : PyVal := PyVal.str "inherit"
  setting_invoice_send_reminders : PyVal := PyVal.str "inherit"
  suggestion_enabled : PyVal := PyVal.bool true
  custom_email_text : PyVal := PyVal.none
  overdue_email_text : PyVal := PyVal.none
  invoice_from_proforma_email_text : PyVal := PyVal.none
  thank_you_email_text : PyVal := PyVal.none
  custom_estimate_email_text : PyVal := PyVal.none
  webinvoice_history : PyVal := PyVal.none
  has_delivery_address : PyVal := PyVal.bool false
  delivery_name : PyVal := PyVal.none
  delivery_street : PyVal := PyVal.none
  delivery_city : PyVal := PyVal.none
  delivery_zip : PyVal := PyVal.none
  delivery_country : PyVal := PyVal.none
  due : PyVal := PyVal.none
  currency : PyVal := PyVal.none
  language : PyVal := PyVal.none
  private_note : PyVal := PyVal.none
  local_vat_no : PyVal := PyVal.none
deriving DecidableEq, Repr

/-- The `Subject(...)` construction of `utils.py` lines 41-85: `data['name']`
raises `KeyError` when absent, every other field comes from `data.get` with
the default written in the source. -/
def subjectOfDict (data : PyDict) : Except PyError Subject :=
  match dictLookup data "name" with
  | Option.none => Except.error (PyError.keyError "name")
  | some nameVal =>
      Except.ok
        { custom_id := dictGet data "custom_id" PyVal.none
          type := dictGet data "type" PyVal.none
          name := nameVal
          full_name := dictGet data "full_name" PyVal.none
          email := dictGet data "email" PyVal.none
          email_copy := dictGet data "email_copy" PyVal.none
          phone := dictGet data "phone" PyVal.none
          web := dictGet data "web" PyVal.none
          street := dictGet data "street" PyVal.none
          city := dictGet data "city" PyVal.none
          zip := dictGet data "zip" PyVal.none
          country := dictGet data "country" PyVal.none
          registration_no := dictGet data "registration_no" PyVal.none
          vat_no := dictGet data "vat_no" PyVal.none
          legal_form := dictGet data "legal_form" PyVal.none
          vat_mode := dictGet data "vat_mode" PyVal.none
          bank_account := dictGet data "bank_account" PyVal.none
          iban := dictGet data "iban" PyVal.none
          swift_bic := dictGet data "swift_bic" PyVal.none
          variable_symbol := dictGet data "variable_symbol" PyVal.none
          setting_update_from_ares :=
            dictGet data "setting_update_from_ares" (PyVal.str "inherit")
          ares_update := dictGet data "ares_update" (PyVal.bool true)
          setting_invoice_pdf_attachments :=
            dictGet data "setting_invoice_pdf_attachments" (PyVal.str "inherit")
          setting_estimate_pdf_attachments :=
            dictGet data "setting_estimate_pdf_attachments" (PyVal.str "inherit")
          setting_invoice_send_reminders :=
            dictGet data "setting_invoice_send_reminders" (PyVal.str "inherit")
          suggestion_enabled := dictGet data "suggestion_enabled" (PyVal.bool true)
          custom_email_text := dictGet data "custom_email_text" PyVal.none
          overdue_email_text := dictGet data "overdue_email_text" PyVal.none
          invoice_from_proforma_email_text :=
            dictGet data "invoice_from_proforma_email_text" PyVal.none
          thank_you_email_text := dictGet data "thank_you_email_text" PyVal.none
          custom_estimate_email_text :=
            dictGet data "custom_estimate_email_text" PyVal.none
          webinvoice_history := dictGet data "webinvoice_history" PyVal.none
          has_delivery_address := dictGet data "has_delivery_address" (PyVal.bool false)
          delivery_name := dictGet data "delivery_name" PyVal.none
          delivery_street := dictGet data "delivery_street" PyVal.none
          delivery_city := dictGet data "delivery_city" PyVal.none
          delivery_zip := dictGet data "delivery_zip" PyVal.none
          delivery_country := dictGet data "delivery_country" PyVal.none
          due := dictGet data "due" PyVal.none
          currency := dictGet data "currency" PyVal.none
          language := dictGet data "language" PyVal.none
          private_note := dictGet data "private_note" PyVal.none
          local_vat_no := dictGet data "local_vat_no" PyVal.none }

/-- The `for subject in existing_subjects: if subject.email == data['email']:
return subject` scan (`utils.py` lines 37-39): first hit wins. -/
def findEmailMatch (email : PyVal) : List Subject → Option Subject
  | [] => Option.none
  | s :: rest => if s.email = email then some s else findEmailMatch email rest

/-- Function `create_fakturoid_subject` (`utils.py` lines 22-90).  `search` abstracts
`fa.subjects.search(query=...)`.  The boolean of the result records whether a
new `Subject` was constructed and saved (`true`) or an existing one returned
(`false`). -/
def create_fakturoid_subject (search : PyVal → List Subject) (data : PyDict) :
    Except PyError (Subject × Bool) :=
  match
    if (dictGet data "email" PyVal.none).isTruthy then
      findEmailMatch (dictGet data "email" PyVal.none)
        (search (dictGet data "email" PyVal.none))
    else Option.none
  with
  | some s => Except.ok (s, false)
  | Option.none =>
    match subjectOfDict data with
    | Except.error e => Except.error e
    | Except.ok s => Except.ok (s, true)

lemma findEmailMatch_mem (email : PyVal) :
    ∀ (l : List Subject) (s : Subject),
      findEmailMatch email l = some s → s ∈ l ∧ s.email = email := by
  intro l
  induction l with
  | nil => intro s h; cases h
  | cons t rest ih =>
    intro s h
    unfold findEmailMatch at h
    by_cases ht : t.email = email
    · rw [if_pos ht] at h
      injection h with h
      subst h
      exact ⟨by simp, ht⟩
    · rw [if_neg ht] at h
      obtain ⟨hmem, heq⟩ := ih s h
      exact ⟨by simp [hmem], heq⟩

lemma findEmailMatch_isSome (email : PyVal) :
    ∀ (l : List Subject) (s : Subject), s ∈ l → s.email = email →
      ∃ t, findEmailMatch email l = some t := by
  intro l
  induction l with
  | nil => intro s h; cases h
  | cons t rest ih =>
    intro s hmem heq
    unfold findEmailMatch
    by_cases ht : t.email = email
    · exact ⟨t, if_pos ht⟩
    · rcases List.mem_cons.mp hmem with h | h
      · subst h; exact absurd heq ht
      · obtain ⟨u, hu⟩ := ih s h heq
        exact ⟨u, by rw [if_neg ht]; exact hu⟩

lemma findEmailMatch_none (email : PyVal) :
    ∀ (l : List Subject), (∀ s, s ∈ l → s.email ≠ email) →
      findEmailMatch email l = Option.none := by
  intro l
  induction l with
  | nil => intro _; rfl
  | cons t rest ih =>
    intro h
    unfold findEmailMatch
    rw [if_neg (h t (by simp)), ih (fun s hs => h s (by simp [hs]))]

/-- C10: when `data` carries a non-empty (truthy) email and the client's
subject search for that email contains a subject with exactly that email,
`create_fakturoid_subject` returns such an existing subject unsaved; and when
no search hit has that email, any successful call constructs and saves a new
subject. -/
theorem create_subject_reuses_existing (search : PyVal → List Subject)
    (data : PyDict) (e : PyVal)
    (he : dictLookup data "email" = some e) (ht : e.isTruthy = true) :
    ((∃ s, s ∈ search e ∧ s.email = e) →
      ∃ s, create_fakturoid_subject search data = Except.ok (s, false) ∧
        s ∈ search e ∧ s.email = e) ∧
    ((∀ s, s ∈ search e → s.email ≠ e) →
      ∀ s b, create_fakturoid_subject search data = Except.ok (s, b) → b = true) := by
  have hev : dictGet data "email" PyVal.none = e := by
    simp [dictGet, he]
  constructor
  · rintro ⟨s, hmem, heq⟩
    obtain ⟨t, hfind⟩ := findEmailMatch_isSome e (search e) s hmem heq
    obtain ⟨htmem, hteq⟩ := findEmailMatch_mem e (search e) t hfind
    refine ⟨t, ?_, htmem, hteq⟩
    unfold create_fakturoid_subject
    rw [hev]
    simp only [ht, if_true, hfind]
  · intro hnone s b hok
    unfold create_fakturoid_subject at hok
    rw [hev] at hok
    simp only [ht, if_true, findEmailMatch_none e (search e) hnone] at hok
    cases hs : subjectOfDict data with
    | error e2 => rw [hs] at hok; cases hok
    | ok s2 =>
      rw [hs] at hok
      injection hok with hok
      exact (congrArg Prod.snd hok).symm

/-- An existing subject whose email matches the query. -/
def subjExample : Subject := { name := PyVal.str "ACME", email := PyVal.str "a@b.cz" }

/-- A search that finds `subjExample` for every query. -/
def searchExample : PyVal → List Subject := fun _ => [subjExample]

/-- Input data naming the same email and a company name. -/
def subjDataExample : PyDict :=
  [("email", PyVal.str "a@b.cz"), ("name", PyVal.str "ACME s.r.o.")]

/-- Witness for C10: with the matching subject in the search results, the
existing subject is returned and nothing new is saved. -/
theorem create_subject_reuses_existing_witness :
    ∃ s, create_fakturoid_subject searchExample subjDataExample =
        Except.ok (s, false) ∧
      s ∈ searchExample (PyVal.str "a@b.cz") ∧ s.email = PyVal.str "a@b.cz" :=
  (create_subject_reuses_existing searchExample subjDataExample
      (PyVal.str "a@b.cz") (by decide) (by decide)).1
    ⟨subjExample, by simp [searchExample], rfl⟩

end Fakturoid
